import Mathlib

/-!
Shallow embedding of `logio/util/plot/Coord.py`: a two-dimensional
coordinate system with dimensioned values (`Dim`), points (`Pt`) and a
fixed unit-conversion table.

Modelling conventions:
* Python floats are modelled as rationals (`ℚ`); the claims under study
  concern exact table arithmetic, not rounding.
* A Python unit identifier is `Option String`: `none` is the `None`
  (unspecified) marker, `some s` a unit name string.
* Fallible Python code (code that may raise) is modelled in
  `Except PyError`; Python evaluation order (left to right) is preserved
  by the order of monadic binds.
-/

deriving instance DecidableEq for Except

namespace Coord

/-- The exceptions the embedded code can raise: `ExceptionCoordUnitConvert`
(carrying its message string) and Python's built-in `ZeroDivisionError`. -/
inductive PyError where
  | unitConvert (msg : String)
  | zeroDivision
deriving DecidableEq

/-- Constant `BASE_UNITS = 'px'` (Coord.py line 44). -/
def BASE_UNITS : Option String := some "px"

/-- How Python's `'%s' % u` renders a unit identifier: `None` for the
unspecified marker, the string itself otherwise. -/
def unitName : Option String → String
  | none => "None"
  | some s => s

/-- Table `UNIT_MAP` (Coord.py lines 47-55) as an association list, in source
order: `{None: 1.0, 'px': 1.0, 'pt': 1.0, 'pc': 12.0, 'in': 72.0,
'cm': 72.0/2.54, 'mm': 72.0/25.4}`. -/
def UNIT_MAP : List (Option String × ℚ) :=
  [(none, 1), (some "px", 1), (some "pt", 1), (some "pc", 12),
   (some "in", 72), (some "cm", 72 / (254/100)), (some "mm", 72 / (254/10))]

/-- Python dict lookup on an association list: first matching key wins. -/
def assocLookup (u : Option String) : List (Option String × ℚ) → Option ℚ
  | [] => none
  | (k, s) :: rest => if k = u then some s else assocLookup u rest

/-- Lookup `UNIT_MAP[u]` as a partial operation: `some scale` when `u` is a key of
the table, `none` when the Python lookup would raise `KeyError`. -/
def scaleOf (u : Option String) : Option ℚ :=
  assocLookup u UNIT_MAP

/-- Function `convert(val, unitFrom, unitTo)` (Coord.py lines 61-70).
The identity fast path runs before any table access; otherwise the
value is scaled through the table, and a `KeyError` from either lookup
lands in the `except` clause, which checks `unitFrom not in UNIT_MAP`
first and formats the message exactly as the source does
(`'Unsupported units %s' % unitTo` in the `unitFrom`-missing branch,
`% unitFrom` otherwise). -/
def convert (val : ℚ) (unitFrom unitTo : Option String) : Except PyError ℚ :=
  if unitFrom = unitTo then
    .ok val
  else
    match scaleOf unitFrom, scaleOf unitTo with
    | some sFrom, some sTo => .ok (val * sFrom / sTo)
    | _, _ =>
      if scaleOf unitFrom = none then
        .error (.unitConvert ("Unsupported units " ++ unitName unitTo))
      else
        .error (.unitConvert ("Unsupported units " ++ unitName unitFrom))

/-- Type `Dim`: a value and its units (Coord.py line 72). -/
structure Dim where
  value : ℚ
  units : Option String
deriving DecidableEq

/-- Method `Dim.scale(factor)` (lines 76-78): value multiplied, units unchanged. -/
def Dim.scale (d : Dim) (factor : ℚ) : Dim :=
  { d with value := d.value * factor }

/-- Method `Dim.divide(factor)` (lines 80-82): `self.value/factor`, units
unchanged. The source has no zero guard; Python numeric division raises
`ZeroDivisionError` when the divisor is zero, which the embedding
returns as `.error .zeroDivision`. -/
def Dim.divide (d : Dim) (factor : ℚ) : Except PyError Dim :=
  if factor = 0 then .error .zeroDivision
  else .ok { d with value := d.value / factor }

/-- Method `Dim.convert(u)` (lines 84-86): value converted, units replaced. -/
def Dim.convert (d : Dim) (u : Option String) : Except PyError Dim :=
  (Coord.convert d.value d.units u).map (fun v => ⟨v, u⟩)

/-- Operator `Dim.__add__` (lines 92-101): if `self.units is None and other.units
is not None` the result takes `other`'s units and `self.value` is
converted; otherwise the result takes `self`'s units and `other.value`
is converted. -/
def Dim.add (a b : Dim) : Except PyError Dim :=
  if a.units = none ∧ b.units ≠ none then
    (Coord.convert a.value a.units b.units).map (fun c => ⟨b.value + c, b.units⟩)
  else
    (Coord.convert b.value b.units a.units).map (fun c => ⟨a.value + c, a.units⟩)

/-- Operator `Dim.__sub__` (lines 103-112): same unit resolution as `__add__`. -/
def Dim.sub (a b : Dim) : Except PyError Dim :=
  if a.units = none ∧ b.units ≠ none then
    (Coord.convert a.value a.units b.units).map (fun c => ⟨c - b.value, b.units⟩)
  else
    (Coord.convert b.value b.units a.units).map (fun c => ⟨a.value - c, a.units⟩)

/-- Operator `Dim.__lt__` (lines 126-128): convert `other.value` into `self.units`,
then compare. -/
def Dim.lt (a b : Dim) : Except PyError Bool :=
  (Coord.convert b.value b.units a.units).map (fun c => decide (a.value < c))

/-- Operator `Dim.__le__` (lines 130-132). -/
def Dim.le (a b : Dim) : Except PyError Bool :=
  (Coord.convert b.value b.units a.units).map (fun c => decide (a.value ≤ c))

/-- Operator `Dim.__eq__` (lines 134-136). -/
def Dim.eq (a b : Dim) : Except PyError Bool :=
  (Coord.convert b.value b.units a.units).map (fun c => decide (a.value = c))

/-- Operator `Dim.__ne__` (lines 138-140). -/
def Dim.ne (a b : Dim) : Except PyError Bool :=
  (Coord.convert b.value b.units a.units).map (fun c => decide (a.value ≠ c))

/-- Operator `Dim.__gt__` (lines 142-144). -/
def Dim.gt (a b : Dim) : Except PyError Bool :=
  (Coord.convert b.value b.units a.units).map (fun c => decide (c < a.value))

/-- Operator `Dim.__ge__` (lines 146-148). -/
def Dim.ge (a b : Dim) : Except PyError Bool :=
  (Coord.convert b.value b.units a.units).map (fun c => decide (c ≤ a.value))

/-- Type `Pt`: an absolute x/y position, both members `Dim` (line 187). -/
structure Pt where
  x : Dim
  y : Dim
deriving DecidableEq

/-- Method `Pt.convert(u)` (lines 202-204): `self._replace(x=self.x.convert(u),
y=self.y.convert(u))`; Python evaluates the `x` argument first, so an
error from `x`'s conversion is raised before `y`'s conversion runs. -/
def Pt.convert (p : Pt) (u : Option String) : Except PyError Pt := do
  let nx ← p.x.convert u
  let ny ← p.y.convert u
  pure ⟨nx, ny⟩

/-- Method `Pt.scale(factor)` (lines 206-208). -/
def Pt.scale (p : Pt) (factor : ℚ) : Pt :=
  ⟨p.x.scale factor, p.y.scale factor⟩

/-- Helper `baseUnitsDim(theLen)` (lines 213-215). -/
def baseUnitsDim (theLen : ℚ) : Dim :=
  ⟨theLen, BASE_UNITS⟩

/-- Helper `zeroBaseUnitsDim()` (lines 217-219). -/
def zeroBaseUnitsDim : Dim :=
  baseUnitsDim 0

/-- Helper `zeroBaseUnitsPt()` (lines 237-239). -/
def zeroBaseUnitsPt : Pt :=
  ⟨zeroBaseUnitsDim, zeroBaseUnitsDim⟩

/-- Helper `newPt(theP, incX, incY)` (lines 241-250): increment `x` by `incX`
when given (via `Dim.__add__`), then `y` by `incY`. -/
def newPt (theP : Pt) (incX incY : Option Dim) : Except PyError Pt := do
  let newX ← match incX with
    | none => pure theP.x
    | some d => theP.x.add d
  let newY ← match incY with
    | none => pure theP.y
    | some d => theP.y.add d
  pure ⟨newX, newY⟩

/-- Helper `convertPt(theP, theUnits)` (lines 252-257): both coordinates
recomputed through the free `convert` function, units forced to
`theUnits`; the `x` keyword argument is evaluated first. -/
def convertPt (theP : Pt) (theUnits : Option String) : Except PyError Pt := do
  let xv ← Coord.convert theP.x.value theP.x.units theUnits
  let yv ← Coord.convert theP.y.value theP.y.units theUnits
  pure ⟨⟨xv, theUnits⟩, ⟨yv, theUnits⟩⟩

/-! Helper lemmas about `convert`. -/

lemma convert_self (v : ℚ) (u : Option String) : convert v u u = .ok v := by
  simp [convert]

lemma convert_table (v s1 s2 : ℚ) (u1 u2 : Option String) (hne : u1 ≠ u2)
    (h1 : scaleOf u1 = some s1) (h2 : scaleOf u2 = some s2) :
    convert v u1 u2 = .ok (v * s1 / s2) := by
  simp [convert, hne, h1, h2]

/-! Claim theorems. -/

/-- C1 (code evaluated at the failing inputs): with `fromUnit` absent
from the table, `convert 1 "bogus" "pt"` raises an error whose message
names the present unit `pt`, not the absent `bogus` (and symmetrically
`convert 1 "pt" "bogus"` also names `pt`); the word `bogus` does not
occur in the message at all. The two raise branches of Coord.py lines
68-70 format the opposite argument, so the claim's naming rule is
violated by the code. -/
theorem convert_error_names_wrong_unit :
    convert 1 (some "bogus") (some "pt") =
      .error (.unitConvert "Unsupported units pt") ∧
    convert 1 (some "pt") (some "bogus") =
      .error (.unitConvert "Unsupported units pt") ∧
    ¬ ("bogus".data <:+: "Unsupported units pt".data) := by
  refine ⟨by decide, by decide, by decide⟩

/-- C7: for every value and every unit present in the table, converting
a unit to itself returns the value unchanged via the fast path, with no
scaling arithmetic. -/
theorem convert_identity_on_valid_units (v : ℚ) (u : Option String)
    (_hu : (scaleOf u).isSome) : convert v u u = .ok v :=
  convert_self v u

/-- C7 witness: the identity law applied at `v = 3`, `u = "in"`. -/
theorem convert_identity_on_valid_units_witness :
    (scaleOf (some "in")).isSome ∧ convert 3 (some "in") (some "in") = .ok 3 :=
  ⟨by decide, convert_identity_on_valid_units 3 (some "in") (by decide)⟩

/-- C10: converting any unit to itself — valid or not — returns the
value and never raises: the equality fast path precedes every table
lookup, so `convert 1 "bogus" "bogus"` succeeds. -/
theorem convert_identity_never_raises :
    (∀ (v : ℚ) (u : Option String), convert v u u = .ok v) ∧
    convert 1 (some "bogus") (some "bogus") = .ok 1 :=
  ⟨fun v u => convert_self v u, convert_self 1 (some "bogus")⟩

/-- C3: the unit table has exactly the seven keys `None`, `px`, `pt`,
`pc`, `in`, `cm`, `mm` with scales 1, 1, 1, 12, 72, 72/2.54, 72/25.4;
for distinct table units conversion is `v * scale[u1] / scale[u2]`; and
the three spec literals hold: one inch is 72 pt, one cm is 72/2.54 pt,
and 25.4 mm is exactly one inch. -/
theorem unit_table_exact_and_linear_scaling :
    UNIT_MAP.map Prod.fst =
      [none, some "px", some "pt", some "pc", some "in", some "cm", some "mm"] ∧
    scaleOf none = some 1 ∧
    scaleOf (some "px") = some 1 ∧
    scaleOf (some "pt") = some 1 ∧
    scaleOf (some "pc") = some 12 ∧
    scaleOf (some "in") = some 72 ∧
    scaleOf (some "cm") = some (72 / (254/100)) ∧
    scaleOf (some "mm") = some (72 / (254/10)) ∧
    (∀ (v s1 s2 : ℚ) (u1 u2 : Option String), u1 ≠ u2 →
      scaleOf u1 = some s1 → scaleOf u2 = some s2 →
      convert v u1 u2 = .ok (v * s1 / s2)) ∧
    convert 1 (some "in") (some "pt") = .ok 72 ∧
    convert 1 (some "cm") (some "pt") = .ok (72 / (254/100)) ∧
    convert (254/10) (some "mm") (some "in") = .ok 1 := by
  refine ⟨rfl, rfl, rfl, rfl, rfl, rfl, rfl, rfl,
    fun v s1 s2 u1 u2 hne h1 h2 => convert_table v s1 s2 u1 u2 hne h1 h2,
    ?_, ?_, ?_⟩
  all_goals simp +decide [convert, scaleOf, assocLookup, UNIT_MAP] <;> norm_num

/-- C3 witness: the general scaling law applied at `v = 5`,
`u1 = "in"`, `u2 = "pt"`. -/
theorem unit_table_exact_and_linear_scaling_witness :
    (some "in" : Option String) ≠ some "pt" ∧
    scaleOf (some "in") = some 72 ∧
    scaleOf (some "pt") = some 1 ∧
    convert 5 (some "in") (some "pt") = .ok (5 * 72 / 1) :=
  ⟨by decide, by decide, by decide,
    unit_table_exact_and_linear_scaling.2.2.2.2.2.2.2.2.1
      5 72 1 (some "in") (some "pt") (by decide) (by decide) (by decide)⟩

/-- C2: `Dim.add`/`Dim.sub` unit resolution — when `self.units` is the
unspecified marker and `other.units` is not, the result carries
`other.units` with `self.value` converted into them; in every other
case (both unspecified included) the result carries `self.units` with
`other.value` converted into them. Consequently
`Dim(5, None) + Dim(1, "in") = Dim(1 + 5/72, "in")` and
`Dim(1, "in") + Dim(5, None) = Dim(1 + 5/72, "in")`, and adding two
unspecified-unit values stays unspecified. -/
theorem dim_add_sub_unit_resolution :
    (∀ a b : Dim, a.units = none → b.units ≠ none →
      a.add b = (convert a.value a.units b.units).map
          (fun c => ⟨b.value + c, b.units⟩) ∧
      a.sub b = (convert a.value a.units b.units).map
          (fun c => ⟨c - b.value, b.units⟩)) ∧
    (∀ a b : Dim, ¬(a.units = none ∧ b.units ≠ none) →
      a.add b = (convert b.value b.units a.units).map
          (fun c => ⟨a.value + c, a.units⟩) ∧
      a.sub b = (convert b.value b.units a.units).map
          (fun c => ⟨a.value - c, a.units⟩)) ∧
    Dim.add ⟨5, none⟩ ⟨1, some "in"⟩ = .ok ⟨1 + 5/72, some "in"⟩ ∧
    Dim.add ⟨1, some "in"⟩ ⟨5, none⟩ = .ok ⟨1 + 5/72, some "in"⟩ ∧
    Dim.add ⟨2, none⟩ ⟨3, none⟩ = .ok ⟨5, none⟩ := by
  refine ⟨fun a b ha hb => ⟨?_, ?_⟩, fun a b h => ⟨?_, ?_⟩, ?_, ?_, ?_⟩
  · simp [Dim.add, ha, hb]
  · simp [Dim.sub, ha, hb]
  · simp [Dim.add, h]
  · simp [Dim.sub, h]
  all_goals
    simp +decide [Dim.add, convert, scaleOf, assocLookup, UNIT_MAP,
      Except.map] <;> norm_num

/-- C2 witness: the every-other-case branch applied at
`a = Dim(1, "in")`, `b = Dim(5, None)`. -/
theorem dim_add_sub_unit_resolution_witness :
    ¬((⟨1, some "in"⟩ : Dim).units = none ∧ (⟨5, none⟩ : Dim).units ≠ none) ∧
    Dim.add ⟨1, some "in"⟩ ⟨5, none⟩ =
      (convert (5:ℚ) none (some "in")).map (fun c => ⟨1 + c, some "in"⟩) :=
  ⟨by decide,
    (dim_add_sub_unit_resolution.2.1 ⟨1, some "in"⟩ ⟨5, none⟩ (by decide)).1⟩

/-- C4: every comparison operator on `Dim` converts `other.value` into
`self.units` and compares there; `self.value` is never converted. In
particular `Dim(1, "in") > Dim(71, "pt")` and
`Dim(1, "in") == Dim(72, "pt")` both hold. -/
theorem dim_comparisons_convert_other :
    (∀ a b : Dim,
      a.lt b = (convert b.value b.units a.units).map
          (fun c => decide (a.value < c)) ∧
      a.le b = (convert b.value b.units a.units).map
          (fun c => decide (a.value ≤ c)) ∧
      a.eq b = (convert b.value b.units a.units).map
          (fun c => decide (a.value = c)) ∧
      a.ne b = (convert b.value b.units a.units).map
          (fun c => decide (a.value ≠ c)) ∧
      a.gt b = (convert b.value b.units a.units).map
          (fun c => decide (c < a.value)) ∧
      a.ge b = (convert b.value b.units a.units).map
          (fun c => decide (c ≤ a.value))) ∧
    Dim.gt ⟨1, some "in"⟩ ⟨71, some "pt"⟩ = .ok true ∧
    Dim.eq ⟨1, some "in"⟩ ⟨72, some "pt"⟩ = .ok true := by
  refine ⟨fun a b => ⟨rfl, rfl, rfl, rfl, rfl, rfl⟩, ?_, ?_⟩
  all_goals
    simp +decide [Dim.gt, Dim.eq, convert, scaleOf, assocLookup, UNIT_MAP,
      Except.map] <;> norm_num

/-- C5 counterexample: `Dim.divide` at factor 0 does raise.
`self.value/factor` is Python numeric division, which raises
`ZeroDivisionError` on a zero divisor (it does not produce
infinity/NaN), so `Dim(1, "pt").divide(0)` is an error. -/
theorem dim_divide_zero_raises :
    Dim.divide ⟨1, some "pt"⟩ 0 = .error .zeroDivision := by decide

/-- C5 amended: the code of `Dim.divide` has no `factor == 0` guard,
but the host numeric type raises on zero division: at factor 0 the
result is `ZeroDivisionError`; for every nonzero factor the result is
`Dim(value/factor, units)` with units unchanged. -/
theorem dim_divide_semantics (d : Dim) (f : ℚ) :
    (f = 0 → d.divide f = .error .zeroDivision) ∧
    (f ≠ 0 → d.divide f = .ok ⟨d.value / f, d.units⟩) := by
  constructor
  · intro h
    simp [Dim.divide, h]
  · intro h
    simp [Dim.divide, h]

/-- C5 amended witness: division by 2. -/
theorem dim_divide_semantics_witness :
    (2:ℚ) ≠ 0 ∧ Dim.divide ⟨6, some "pt"⟩ 2 = .ok ⟨(6:ℚ) / 2, some "pt"⟩ :=
  ⟨by norm_num, (dim_divide_semantics ⟨6, some "pt"⟩ 2).2 (by norm_num)⟩

/-- C6: `zeroBaseUnitsPt` has both coordinates equal to
`Dim(0, BASE_UNITS)` — concretely `Dim(0, "px")`, carrying the base
unit rather than the unspecified marker — both structurally and under
unit-aware `Dim` equality; therefore translating it by `Dim(5, "in")`
lands on `x = Dim(360, "px")` (self's base units win in `Dim.add` and
5 inches convert to 360 base units), which is unit-aware equal to
`Dim(360, "pt")`. -/
theorem zeroPt_translate_base_units :
    zeroBaseUnitsPt.x = ⟨0, some "px"⟩ ∧
    zeroBaseUnitsPt.y = ⟨0, some "px"⟩ ∧
    BASE_UNITS = some "px" ∧
    zeroBaseUnitsPt.x.units = BASE_UNITS ∧
    zeroBaseUnitsPt.y.units = BASE_UNITS ∧
    Dim.eq zeroBaseUnitsPt.x ⟨0, BASE_UNITS⟩ = .ok true ∧
    Dim.eq zeroBaseUnitsPt.y ⟨0, BASE_UNITS⟩ = .ok true ∧
    newPt zeroBaseUnitsPt (some ⟨5, some "in"⟩) none =
      .ok ⟨⟨360, some "px"⟩, ⟨0, some "px"⟩⟩ ∧
    Dim.eq ⟨360, some "px"⟩ ⟨360, some "pt"⟩ = .ok true := by
  refine ⟨rfl, rfl, rfl, rfl, rfl, by decide, by decide, ?_, ?_⟩
  all_goals
    simp +decide [newPt, Dim.add, Dim.eq, convert, scaleOf, assocLookup,
      UNIT_MAP, Except.map, zeroBaseUnitsPt, zeroBaseUnitsDim, baseUnitsDim,
      BASE_UNITS] <;> norm_num

/-- C8: the free function `convertPt` and the method `Pt.convert` are
behaviourally equivalent: on every point and every target unit they
return the same `Except` result — the same converted point on success
and the same `UnitConversionError` on failure. -/
theorem convertPt_equiv_pt_convert (p : Pt) (u : Option String) :
    convertPt p u = p.convert u := by
  cases hx : Coord.convert p.x.value p.x.units u <;>
    cases hy : Coord.convert p.y.value p.y.units u <;>
      simp [convertPt, Pt.convert, Dim.convert, hx, hy, Except.map,
        Bind.bind, Except.bind]

/-- C9: `Pt.convert` fails fast on `x` before `y`: whenever converting
`p.x` raises, `Pt.convert` returns exactly that error, whatever `p.y`
is — `p.y`'s conversion is never evaluated. -/
theorem pt_convert_fail_fast (p : Pt) (u : Option String) (e : PyError)
    (hx : p.x.convert u = .error e) : p.convert u = .error e := by
  simp [Pt.convert, hx, Bind.bind, Except.bind]

/-- C9 witness: converting to the invalid unit `bogus`, with `x` in
`pt` and `y` in `cm`; `y` alone would report `cm`, but the point
conversion reports `x`'s error naming `pt`. -/
theorem pt_convert_fail_fast_witness :
    Dim.convert ⟨1, some "pt"⟩ (some "bogus") =
      .error (.unitConvert "Unsupported units pt") ∧
    Dim.convert ⟨1, some "cm"⟩ (some "bogus") =
      .error (.unitConvert "Unsupported units cm") ∧
    Pt.convert ⟨⟨1, some "pt"⟩, ⟨1, some "cm"⟩⟩ (some "bogus") =
      .error (.unitConvert "Unsupported units pt") :=
  ⟨by decide, by decide,
    pt_convert_fail_fast ⟨⟨1, some "pt"⟩, ⟨1, some "cm"⟩⟩ (some "bogus")
      (.unitConvert "Unsupported units pt") (by decide)⟩

end Coord
